import Mathlib

/-!
# Verification of the distributed worker node (`dask/distributed/node.py`)

Shallow embedding of the worker module: the `Worker` class's request
dispatch (`unpack_function`, `execute_and_reply`, the message-handling
step of `listen_to_scheduler`), the outbound send paths
(`send_to_scheduler`, `send_to_worker` and their locking), the peer
data-collection protocol (`collect`), the task-computation protocol
(`compute`), and the construction-time address default of `__init__`.

External collaborators (the pluggable serializer `loads`/`dumps`, the
random peer choice `random.choice`, the task evaluator `dask.core.get`,
the clock `time()`, the payloads of peer replies) are modelled as oracle
parameters, so the theorems quantify over them.
-/

namespace DaskWorker

/-- Opaque wire bytes carried in message frames. -/
abbrev Bytes := List Nat

/-- Python values as they appear in this module's headers, payloads and
data store: `None`, booleans, integers, strings, tuples, lists, dicts
and exception objects (a caught exception is a first-class value here:
the module stores it into reply results and compute statuses). -/
inductive PyVal where
  | none
  | bool (b : Bool)
  | int (n : Int)
  | str (s : String)
  | tuple (xs : List PyVal)
  | list (xs : List PyVal)
  | dict (entries : List (PyVal × PyVal))
  | exc (kind : String) (arg : PyVal)

mutual
/-- Structural equality on `PyVal` (Python `==` on these values).
Written by hand because `PyVal` nests through `List`. -/
def PyVal.beq : PyVal → PyVal → Bool
  | .none, .none => true
  | .bool a, .bool b => a == b
  | .int a, .int b => a == b
  | .str a, .str b => a == b
  | .tuple xs, .tuple ys => PyVal.beqList xs ys
  | .list xs, .list ys => PyVal.beqList xs ys
  | .dict xs, .dict ys => PyVal.beqPairs xs ys
  | .exc k a, .exc k' a' => k == k' && PyVal.beq a a'
  | _, _ => false

/-- Elementwise `PyVal.beq` on lists. -/
def PyVal.beqList : List PyVal → List PyVal → Bool
  | [], [] => true
  | x :: xs, y :: ys => PyVal.beq x y && PyVal.beqList xs ys
  | _, _ => false

/-- Elementwise `PyVal.beq` on key-value pair lists. -/
def PyVal.beqPairs : List (PyVal × PyVal) → List (PyVal × PyVal) → Bool
  | [], [] => true
  | (k, v) :: xs, (k', v') :: ys =>
      PyVal.beq k k' && PyVal.beq v v' && PyVal.beqPairs xs ys
  | _, _ => false
end

mutual
/-- Soundness of `PyVal.beq`, needed for the decidable-equality instance. -/
def PyVal.eqOfBeq : (a b : PyVal) → PyVal.beq a b = true → a = b
  | .none, .none, _ => rfl
  | .bool a, .bool b, h => by simp [PyVal.beq] at h; simp [h]
  | .int a, .int b, h => by simp [PyVal.beq] at h; simp [h]
  | .str a, .str b, h => by simp [PyVal.beq] at h; simp [h]
  | .tuple xs, .tuple ys, h =>
      congrArg PyVal.tuple (PyVal.eqOfBeqList xs ys (by simpa [PyVal.beq] using h))
  | .list xs, .list ys, h =>
      congrArg PyVal.list (PyVal.eqOfBeqList xs ys (by simpa [PyVal.beq] using h))
  | .dict xs, .dict ys, h =>
      congrArg PyVal.dict (PyVal.eqOfBeqPairs xs ys (by simpa [PyVal.beq] using h))
  | .exc k a, .exc k' a', h => by
      simp [PyVal.beq] at h
      rw [h.1, PyVal.eqOfBeq a a' h.2]

/-- Soundness of `PyVal.beqList`. -/
def PyVal.eqOfBeqList : (xs ys : List PyVal) → PyVal.beqList xs ys = true → xs = ys
  | [], [], _ => rfl
  | x :: xs, y :: ys, h => by
      simp [PyVal.beqList] at h
      rw [PyVal.eqOfBeq x y h.1, PyVal.eqOfBeqList xs ys h.2]

/-- Soundness of `PyVal.beqPairs`. -/
def PyVal.eqOfBeqPairs :
    (xs ys : List (PyVal × PyVal)) → PyVal.beqPairs xs ys = true → xs = ys
  | [], [], _ => rfl
  | (k, v) :: xs, (k', v') :: ys, h => by
      simp [PyVal.beqPairs] at h
      rw [PyVal.eqOfBeq k k' h.1.1, PyVal.eqOfBeq v v' h.1.2,
          PyVal.eqOfBeqPairs xs ys h.2]
end

mutual
/-- Reflexivity of `PyVal.beq`. -/
def PyVal.beqRefl : (a : PyVal) → PyVal.beq a a = true
  | .none => rfl
  | .bool b => by simp [PyVal.beq]
  | .int n => by simp [PyVal.beq]
  | .str s => by simp [PyVal.beq]
  | .tuple xs => by simp [PyVal.beq, PyVal.beqListRefl xs]
  | .list xs => by simp [PyVal.beq, PyVal.beqListRefl xs]
  | .dict xs => by simp [PyVal.beq, PyVal.beqPairsRefl xs]
  | .exc k a => by simp [PyVal.beq, PyVal.beqRefl a]

/-- Reflexivity of `PyVal.beqList`. -/
def PyVal.beqListRefl : (xs : List PyVal) → PyVal.beqList xs xs = true
  | [] => rfl
  | x :: xs => by simp [PyVal.beqList, PyVal.beqRefl x, PyVal.beqListRefl xs]

/-- Reflexivity of `PyVal.beqPairs`. -/
def PyVal.beqPairsRefl : (xs : List (PyVal × PyVal)) → PyVal.beqPairs xs xs = true
  | [] => rfl
  | (k, v) :: xs => by
      simp [PyVal.beqPairs, PyVal.beqRefl k, PyVal.beqRefl v, PyVal.beqPairsRefl xs]
end

instance : DecidableEq PyVal := fun a b =>
  if h : PyVal.beq a b = true then isTrue (PyVal.eqOfBeq a b h)
  else isFalse (fun he => h (he ▸ PyVal.beqRefl a))

/-- The exceptions raised on this module's code paths. -/
inductive PyErr where
  | keyError (key : PyVal)
  | typeError (msg : String)
  | attributeError (attr : String)
  | nameError (name : String)
  | unpicklingError
  deriving DecidableEq

/-- A caught exception bound by `except ... as e`, used as a value
(`result = e` on line 108/114, `status = e` on line 282). -/
def PyErr.toVal : PyErr → PyVal
  | .keyError k => .exc "KeyError" k
  | .typeError m => .exc "TypeError" (.str m)
  | .attributeError a => .exc "AttributeError" (.str a)
  | .nameError n => .exc "NameError" (.str n)
  | .unpicklingError => .exc "UnpicklingError" .none

/-- Python truthiness, applied to the decoded `reply` header field by
`self.send_to_scheduler if reply else None` (lines 206, 221). -/
def truthy : PyVal → Bool
  | .none => false
  | .bool b => b
  | .int n => n != 0
  | .str s => s ≠ ""
  | .tuple xs => !xs.isEmpty
  | .list xs => !xs.isEmpty
  | .dict es => !es.isEmpty
  | .exc _ _ => true

/-- `'%s' % v` string conversion, used by `'Function %s not found' % func`
(line 110).  A string formats as itself, without quotes. -/
def pyStr : PyVal → String
  | .str s => s
  | .int n => toString n
  | .bool true => "True"
  | .bool false => "False"
  | .none => "None"
  | .tuple _ => "<tuple>"
  | .list _ => "<list>"
  | .dict _ => "<dict>"
  | .exc k _ => k

/-- The worker's local store `self.data` (and any decoded dict value):
a key → value mapping as an association list whose lookup finds the
first binding. -/
abbrev Data := List (PyVal × PyVal)

/-- `d[k]` read: first binding of `k`, if any. -/
def lookup (k : PyVal) : Data → Option PyVal
  | [] => Option.none
  | (k', v) :: rest => if k' = k then some v else lookup k rest

/-- `d[k] = v`: bind `k` to `v`, shadowing any earlier binding. -/
def insert (k v : PyVal) (d : Data) : Data := (k, v) :: d

/-- `del d[k]`: drop every binding of `k`. -/
def erase (k : PyVal) : Data → Data
  | [] => []
  | (k', v) :: rest => if k' = k then erase k rest else (k', v) :: erase k rest

/-- `v.get(k, default)` on a decoded value; a non-dict has no `get`
method, so Python raises `AttributeError`. -/
def pyGet (v k default : PyVal) : Except PyErr PyVal :=
  match v with
  | .dict es => .ok ((lookup k es).getD default)
  | _ => .error (.attributeError "get")

/-- `v[k]` subscript on a decoded value; a missing key raises
`KeyError`, a non-dict raises `TypeError`. -/
def pyIndex (v k : PyVal) : Except PyErr PyVal :=
  match v with
  | .dict es =>
      match lookup k es with
      | some w => .ok w
      | Option.none => .error (.keyError k)
  | _ => .error (.typeError "object is not subscriptable")

/-- A `getitem` request sent to one peer during `collect` (lines 242-249):
destination picked by `random.choice(locs)`, header
`{'address': self.address, 'jobid': key}`, payload
`{'function': 'getitem', 'args': (key,)}`. -/
structure PeerRequest where
  dest : String
  sender : String
  jobid : PyVal
  func : String
  args : List PyVal
  deriving DecidableEq

/-- The worker's identity plus its external collaborators, passed as
oracles: `random.choice`, the value a peer's `getitem` reply carries,
the task evaluator `dask.core.get`, and the two `time()` readings taken
by one run of `compute`. -/
structure Env where
  selfAddr : String
  /-- `random.choice(locs)` for the request on `key`.  Modelled as a
  total oracle; CPython raises `IndexError` on an empty candidate list,
  so theorems about `collect`/`compute` assume nonempty candidates. -/
  choice : PyVal → List String → String
  /-- The payload of the peer's reply to a `collect` request.  The
  reply's header job id echoes the request's job id because the peer
  also runs `Worker.execute_and_reply` (line 117), so only the payload
  is an oracle. -/
  fetch : PeerRequest → PyVal
  /-- `dask.core.get(data, task)` (line 279): the external evaluator. -/
  evalTask : Data → PyVal → Except PyErr PyVal
  /-- `time()` at `start = time()` (line 275). -/
  t0 : Int
  /-- `time()` at `end = time()` (line 280 or 283). -/
  t1 : Int

/-- Fan-out phase of `collect` (lines 239-249): for each key not already
present locally, build one `getitem` request to a randomly chosen
holder.  Keys already present are skipped (`if key in self.data:
continue`, line 240). -/
def collectRequests (env : Env) (data : Data) :
    List (PyVal × List String) → List PeerRequest
  | [] => []
  | (key, locs) :: rest =>
      match lookup key data with
      | some _ => collectRequests env data rest
      | Option.none =>
          { dest := env.choice key locs, sender := env.selfAddr, jobid := key,
            func := "getitem", args := [key] } :: collectRequests env data rest

/-- Fan-in phase of `collect` (lines 253-259): for each issued request,
block on its reply and store `self.data[header['jobid']] = payload`.
The reply's job id is the request's job id (see `Env.fetch`). -/
def collectReceive (env : Env) : List PeerRequest → Data → Data
  | [], d => d
  | r :: rs, d => collectReceive env rs (insert r.jobid (env.fetch r) d)

/-- `Worker.collect(locations)` (lines 223-259): fan out `getitem`
requests for the missing keys, then fan in every reply into the data
store.  Also returns the list of issued peer requests so that theorems
can speak about which requests went out. -/
def collect (env : Env) (data : Data) (locations : List (PyVal × List String)) :
    Data × List PeerRequest :=
  let reqs := collectRequests env data locations
  (collectReceive env reqs data, reqs)

/-- The job outcome record returned by `compute` (lines 288-290). -/
structure ComputeRecord where
  key : PyVal
  duration : Int
  status : PyVal
  deriving DecidableEq

/-- The record as the Python dict `{'key': .., 'duration': .., 'status': ..}`. -/
def ComputeRecord.toVal (r : ComputeRecord) : PyVal :=
  .dict [(.str "key", r.key), (.str "duration", .int r.duration),
         (.str "status", r.status)]

/-- `Worker.compute(key, task, locations)` (lines 261-290): run
`collect`, then evaluate the task against the store.  On success store
the result under `key` with status `"OK"`; on failure the caught
exception becomes the status and nothing is stored.  Either way the
record carries `key` and `duration = end - start`. -/
def compute (env : Env) (key task : PyVal) (locations : List (PyVal × List String))
    (data : Data) : Data × ComputeRecord :=
  let dataC := (collect env data locations).1
  match env.evalTask dataC task with
  | .ok result =>
      (insert key result dataC,
       { key := key, duration := env.t1 - env.t0, status := .str "OK" })
  | .error e =>
      (dataC, { key := key, duration := env.t1 - env.t0, status := e.toVal })

/-- Keys of the registry dict `self.functions` (lines 77-82). -/
def functionNames : List String :=
  ["status", "collect", "compute", "getitem", "setitem", "delitem"]

/-- `func in self.functions` (line 109): only these six string keys are
registered; any other value fails the lookup. -/
def isRegistered : PyVal → Bool
  | .str s => decide (s ∈ functionNames)
  | _ => false

/-- `'Function %s not found' % func` (line 110). -/
def notFoundStatus (func : PyVal) : String :=
  "Function " ++ pyStr func ++ " not found"

/-- Decode a `collect`/`compute` locations argument into key → candidate
address list.  A non-dict value fails (`locations.items()` raises
`AttributeError`), as does a candidate set that is not a sequence of
address strings. -/
def asStrings : List PyVal → Option (List String)
  | [] => some []
  | .str s :: rest => (asStrings rest).map (s :: ·)
  | _ => Option.none

/-- A candidate set as a tuple or list of address strings. -/
def asAddressList : PyVal → Option (List String)
  | .tuple vs => asStrings vs
  | .list vs => asStrings vs
  | _ => Option.none

/-- Decoded entries of a locations dict. -/
def asLocEntries : List (PyVal × PyVal) → Option (List (PyVal × List String))
  | [] => some []
  | (k, v) :: rest =>
      match asAddressList v, asLocEntries rest with
      | some ls, some t => some ((k, ls) :: t)
      | _, _ => Option.none

/-- A locations argument as a dict of candidate sets. -/
def asLocations : PyVal → Option (List (PyVal × List String))
  | .dict es => asLocEntries es
  | _ => Option.none

/-- `function(*args, **kwargs)` (line 105) for the six registered
handlers.  The protocol calls every handler positionally; keyword
binding beyond an empty kwargs dict is modelled as the `TypeError` the
builtin dict methods and the zero-argument `status` raise. -/
def callFunction (env : Env) (data : Data) (func : PyVal) (args : List PyVal)
    (kwargsV : PyVal) : Except PyErr (PyVal × Data) :=
  match kwargsV with
  | .dict [] =>
      match func, args with
      | .str "status", [] => .ok (.str "OK", data)
      | .str "getitem", [k] =>
          match lookup k data with
          | some v => .ok (v, data)
          | Option.none => .error (.keyError k)
      | .str "setitem", [k, v] => .ok (.none, insert k v data)
      | .str "delitem", [k] =>
          match lookup k data with
          | some _ => .ok (.none, erase k data)
          | Option.none => .error (.keyError k)
      | .str "collect", [locsV] =>
          match asLocations locsV with
          | some locs => .ok (.none, (collect env data locs).1)
          | Option.none => .error (.attributeError "items")
      | .str "compute", [key, task, locsV] =>
          match asLocations locsV with
          | some locs =>
              let r := compute env key task locs data
              .ok (r.2.toVal, r.1)
          | Option.none => .error (.attributeError "items")
      | _, _ => .error (.typeError "bad arguments")
  | _ => .error (.typeError "keyword arguments not accepted")

/-- The reply header `{'jobid': jobid, 'status': status}` built on
lines 117-118. -/
structure ReplyHeader where
  jobid : PyVal
  status : String
  deriving DecidableEq

/-- The try/except block of `execute_and_reply` (lines 103-115): look
the name up in the registry and call it.  A `KeyError` with the name
unregistered means the registry lookup itself failed, giving the
not-found status; every exception out of a registered handler
(`KeyError` included) gives status `'Error'`.  Returns the store after
the call, the result value, and the status string. -/
def executeOutcome (env : Env) (data : Data) (func : PyVal) (args : List PyVal)
    (kwargsV : PyVal) : Data × PyVal × String :=
  if isRegistered func then
    match callFunction env data func args kwargsV with
    | .ok (v, d) => (d, v, "OK")
    | .error e => (data, e.toVal, "Error")
  else
    (data, PyErr.toVal (.keyError func), notFoundStatus func)

/-- `Worker.execute_and_reply(func, args, kwargs, jobid, send)`
(lines 89-124): run the outcome, then, only when a send sink was
supplied, emit `(header, result)` with header
`{'jobid': jobid, 'status': status}`.  The emitted message is returned
as the `Option` component; `Option.none` models `send = None`
(no outbound message).  Both channel loops dispatch through this one
function, with `send_to_scheduler` or `send_to_worker(address)` as the
sink. -/
def executeAndReply (env : Env) (func : PyVal) (args : List PyVal) (kwargsV : PyVal)
    (jobid : PyVal) (sendWanted : Bool) (data : Data) :
    Data × Option (ReplyHeader × PyVal) :=
  let o := executeOutcome env data func args kwargsV
  (o.1,
   if sendWanted then some ({ jobid := jobid, status := o.2.2 }, o.2.1)
   else Option.none)

/-- `args = payload.get('args', ()); if not isinstance(args, tuple):
args = (args,)` (lines 153-155): only a tuple passes through as the
positional-argument sequence; anything else is wrapped whole. -/
def normalizeArgs : PyVal → List PyVal
  | .tuple xs => xs
  | v => [v]

/-- What `unpack_function` hands to the pool: the dispatch tuple
`(func, args, kwargs, jobid, reply)` of line 158. -/
structure Submission where
  func : PyVal
  args : List PyVal
  kwargsV : PyVal
  jobid : PyVal
  reply : Bool
  deriving DecidableEq

/-- `self.loads(bytes)`: the pluggable deserializer.  On malformed bytes
the pickle module raises; the oracle's `Option.none` is that failure. -/
def decodeOrRaise (loads : Bytes → Option PyVal) (b : Bytes) : Except PyErr PyVal :=
  match loads b with
  | some v => Except.ok v
  | Option.none => Except.error PyErr.unpicklingError

/-- `Worker.unpack_function(header, payload)` (lines 142-158):
deserialize payload then header, read `jobid` (default `None`) and
`reply` (default `True`, taken by truthiness) from the header, and
`function`, `args` (normalized to a tuple) and `kwargs` from the
payload.  Any failure raises out of this function. -/
def unpack_function (loads : Bytes → Option PyVal) (header payload : Bytes) :
    Except PyErr Submission := do
  let payloadV ← decodeOrRaise loads payload
  let headerV ← decodeOrRaise loads header
  let jobid ← pyGet headerV (.str "jobid") .none
  let reply ← pyGet headerV (.str "reply") (.bool true)
  let func ← pyIndex payloadV (.str "function")
  let argsV ← pyGet payloadV (.str "args") (.tuple [])
  let kwargsV ← pyGet payloadV (.str "kwargs") (.dict [])
  pure { func := func, args := normalizeArgs argsV, kwargsV := kwargsV,
         jobid := jobid, reply := truthy reply }

/-- One message-handling step of the `listen_to_scheduler` loop
(lines 194-206) composed with the execution unit it submits: the body
calls `unpack_function` with no surrounding try/except, so a decode
failure is returned as `Except.error` — the exception escaping the loop
body and killing the polling thread — and only a successful unpack
reaches `execute_and_reply` (whose own send decision follows the
decoded `reply` flag). -/
def schedulerMessageStep (env : Env) (loads : Bytes → Option PyVal) (data : Data)
    (header payload : Bytes) :
    Except PyErr (Data × Option (ReplyHeader × PyVal)) :=
  match unpack_function loads header payload with
  | .error e => .error e
  | .ok sub =>
      .ok (executeAndReply env sub.func sub.args sub.kwargsV sub.jobid sub.reply data)

/-- The reply header after the send path stamps the sender
(`header['address'] = self.address`, lines 128/136). -/
def stampedHeader (selfAddr : String) (h : ReplyHeader) : PyVal :=
  .dict [(.str "jobid", h.jobid), (.str "status", .str h.status),
         (.str "address", .str selfAddr)]

/-- The mutual-exclusion locks a `Worker` owns.  `__init__` creates
exactly one: `self.lock = Lock()` (line 75). -/
inductive LockName where
  | selfLock
  deriving DecidableEq

/-- All locks created by `Worker.__init__`. -/
def workerLocks : List LockName := [LockName.selfLock]

/-- Events of one outbound send. -/
inductive SendEvent where
  | acquire (l : LockName)
  | frames (fs : List Bytes)
  | release (l : LockName)
  deriving DecidableEq

/-- `Worker.send_to_scheduler(header, payload)` (lines 126-131): stamp
the sender address, then under `self.lock` send the two frames on the
dealer channel. -/
def send_to_scheduler (dumps : PyVal → Bytes) (selfAddr : String) (h : ReplyHeader)
    (payload : PyVal) : List SendEvent :=
  [SendEvent.acquire LockName.selfLock,
   SendEvent.frames [dumps (stampedHeader selfAddr h), dumps payload],
   SendEvent.release LockName.selfLock]

/-- `Worker.send_to_worker(address, header, result)` (lines 133-140):
stamp the sender address, then under `self.lock` send the destination
identity frame and the two message frames on the router channel. -/
def send_to_worker (dumps : PyVal → Bytes) (selfAddr : String) (dest : Bytes)
    (h : ReplyHeader) (result : PyVal) : List SendEvent :=
  [SendEvent.acquire LockName.selfLock,
   SendEvent.frames [dest, dumps (stampedHeader selfAddr h), dumps result],
   SendEvent.release LockName.selfLock]

/-- The locks a send path acquires, in order. -/
def locksAcquired (evs : List SendEvent) : List LockName :=
  evs.filterMap fun e =>
    match e with
    | .acquire l => some l
    | _ => Option.none

/-- Names bound at the module's top level: the import block (lines 1-18)
and the module-level statements and definitions that follow.  `socket`
is not among them — the module never imports it. -/
def moduleTopLevelNames : List String :=
  ["print_function", "ComputeNode", "Thread", "Lock", "ThreadPool",
   "contextmanager", "uuid", "random", "multiprocessing", "zmq", "dask",
   "partial", "get", "curry", "time", "sys", "dumps", "loads",
   "HIGHEST_PROTOCOL", "DEBUG", "context", "f", "log", "logerrors",
   "Worker", "status"]

/-- Outcome of the address-establishing prefix of `Worker.__init__`. -/
inductive InitResult where
  | ok (address : String)
  | nameError (missing : String)
  deriving DecidableEq

/-- Lines 59-63 of `Worker.__init__`: with an explicit address, use it;
otherwise default the port to 6464 and evaluate
`'tcp://%s:%d' % (socket.gethostname(), port)` — which resolves the
global name `socket` and raises `NameError` when the module never bound
it. -/
def workerInitAddress (hostname : String) (address : Option String)
    (port : Option Int) : InitResult :=
  match address with
  | some a => InitResult.ok a
  | Option.none =>
      let p := port.getD 6464
      if "socket" ∈ moduleTopLevelNames then
        InitResult.ok ("tcp://" ++ hostname ++ ":" ++ toString p)
      else InitResult.nameError "socket"

/-- A concrete environment for instantiating theorems on explicit
inputs. -/
def env0 : Env :=
  { selfAddr := "tcp://w:1", choice := fun _ _ => "tcp://p:1",
    fetch := fun _ => PyVal.int 0, evalTask := fun _ _ => Except.ok PyVal.none,
    t0 := 0, t1 := 0 }

/-- A concrete environment whose task evaluator always raises. -/
def envFail : Env :=
  { selfAddr := "tcp://w:1", choice := fun _ _ => "tcp://p:1",
    fetch := fun _ => PyVal.int 0,
    evalTask := fun _ _ => Except.error (PyErr.typeError "boom"),
    t0 := 2, t1 := 7 }

/-- A concrete serializer for instantiating theorems: it decodes the
byte string `[0]` to a status-request payload, `[1]` to a plain header,
`[2]` to a header asking for no reply; all other bytes are malformed. -/
def loadsProbe : Bytes → Option PyVal
  | [0] => some (.dict [(.str "function", .str "status")])
  | [1] => some (.dict [(.str "jobid", .int 5)])
  | [2] => some (.dict [(.str "jobid", .int 5), (.str "reply", .bool false)])
  | _ => Option.none

/-- Modelled from the spec: its word "sequence" for a payload's args
field, used to compare the spec's normalization claim against the
source's `isinstance(args, tuple)` test.  Python's sequence types here
are tuples, lists and strings. -/
def isSequence : PyVal → Bool
  | .tuple _ => true
  | .list _ => true
  | .str _ => true
  | _ => false

/-- Modelled from the spec: the elements of a sequence value, as the
spec's claim "its elements passed as the positional arguments" would
have them (a string's elements are its one-character strings). -/
def seqElements : PyVal → List PyVal
  | .tuple xs => xs
  | .list xs => xs
  | .str s => s.data.map fun c => .str (String.singleton c)
  | v => [v]

/-! ## Helper lemmas about the data store and the collect protocol -/

/-- Reading back a freshly written binding. -/
theorem lookup_insert_self (k v : PyVal) (d : Data) :
    lookup k (insert k v d) = some v := by
  simp [insert, lookup]

/-- A write under a different key does not change a read. -/
theorem lookup_insert_ne (v : PyVal) (d : Data) {k' k : PyVal} (h : k' ≠ k) :
    lookup k (insert k' v d) = lookup k d := by
  simp [insert, lookup, h]

/-- Every request the fan-out phase issues is for a key absent from the
store: present keys are skipped by `if key in self.data: continue`. -/
theorem mem_collectRequests {env : Env} {data : Data} :
    ∀ {locations : List (PyVal × List String)} {r : PeerRequest},
      r ∈ collectRequests env data locations → lookup r.jobid data = Option.none := by
  intro locations
  induction locations with
  | nil => intro r hr; simp [collectRequests] at hr
  | cons p rest ih =>
      intro r hr
      obtain ⟨key, locs⟩ := p
      rcases hc : lookup key data with _ | w
      · simp only [collectRequests, hc, List.mem_cons] at hr
        rcases hr with rfl | hr
        · exact hc
        · exact ih hr
      · simp only [collectRequests, hc] at hr
        exact ih hr

/-- The fan-in phase leaves keys alone that no issued request names. -/
theorem lookup_collectReceive_of_forall_ne (env : Env) :
    ∀ (rs : List PeerRequest) (d : Data) {k : PyVal},
      (∀ r ∈ rs, r.jobid ≠ k) →
      lookup k (collectReceive env rs d) = lookup k d := by
  intro rs
  induction rs with
  | nil => intro d k h; rfl
  | cons r rs ih =>
      intro d k h
      show lookup k (collectReceive env rs (insert r.jobid (env.fetch r) d)) = lookup k d
      rw [ih _ (fun x hx => h x (List.mem_cons_of_mem _ hx))]
      exact lookup_insert_ne _ _ (h r (List.mem_cons_self _ _))

/-- The fan-in phase never removes a key that is already present. -/
theorem isSome_lookup_collectReceive (env : Env) :
    ∀ (rs : List PeerRequest) {d : Data} {k : PyVal},
      (lookup k d).isSome = true →
      (lookup k (collectReceive env rs d)).isSome = true := by
  intro rs
  induction rs with
  | nil => intro d k h; exact h
  | cons r rs ih =>
      intro d k h
      show (lookup k (collectReceive env rs (insert r.jobid (env.fetch r) d))).isSome = true
      apply ih
      by_cases hk : r.jobid = k
      · subst hk; rw [lookup_insert_self]; rfl
      · rw [lookup_insert_ne _ _ hk]; exact h

/-- After the fan-in phase, every key some issued request named is
present in the store. -/
theorem isSome_lookup_collectReceive_of_mem (env : Env) :
    ∀ {rs : List PeerRequest} (d : Data) {k : PyVal},
      (∃ r ∈ rs, r.jobid = k) →
      (lookup k (collectReceive env rs d)).isSome = true := by
  intro rs
  induction rs with
  | nil => intro d k h; rcases h with ⟨r, hr, _⟩; simp at hr
  | cons r rs ih =>
      intro d k h
      rcases h with ⟨x, hx, hjid⟩
      rcases List.mem_cons.mp hx with rfl | hx2
      · show (lookup k (collectReceive env rs (insert x.jobid (env.fetch x) d))).isSome = true
        apply isSome_lookup_collectReceive env rs
        rw [hjid, lookup_insert_self]
        rfl
      · exact ih _ ⟨x, hx2, hjid⟩

/-- Every key of the locations mapping is either already present or
named by one of the issued requests. -/
theorem collectRequests_covers (env : Env) (data : Data) :
    ∀ {locations : List (PyVal × List String)} {key : PyVal} {locs : List String},
      (key, locs) ∈ locations →
      (lookup key data).isSome = true
      ∨ ∃ r ∈ collectRequests env data locations, r.jobid = key := by
  intro locations
  induction locations with
  | nil => intro key locs h; simp at h
  | cons p rest ih =>
      intro key locs h
      obtain ⟨pk, pl⟩ := p
      rcases List.mem_cons.mp h with heq | hmem
      · injection heq with h1 h2
        subst h1; subst h2
        rcases hc : lookup key data with _ | w
        · right
          refine ⟨⟨env.choice key locs, env.selfAddr, key, "getitem", [key]⟩, ?_, rfl⟩
          simp [collectRequests, hc]
        · left; rfl
      · rcases ih hmem with hs | ⟨r, hr, hjid⟩
        · left; exact hs
        · right
          refine ⟨r, ?_, hjid⟩
          rcases hc : lookup pk data with _ | w
          · simp only [collectRequests, hc, List.mem_cons]
            exact Or.inr hr
          · simp only [collectRequests, hc]
            exact hr

/-- The not-found status string is distinct from the two fixed statuses,
whatever the function name. -/
theorem notFound_ne (s : String) :
    ("Function " ++ s ++ " not found" ≠ "OK")
    ∧ ("Function " ++ s ++ " not found" ≠ "Error") := by
  constructor
  · intro h
    have hl := congrArg String.length h
    rw [String.length_append, String.length_append] at hl
    have h1 : ("Function ").length = 9 := rfl
    have h2 : (" not found").length = 10 := rfl
    have h3 : ("OK").length = 2 := rfl
    omega
  · intro h
    have hl := congrArg String.length h
    rw [String.length_append, String.length_append] at hl
    have h1 : ("Function ").length = 9 := rfl
    have h2 : (" not found").length = 10 := rfl
    have h3 : ("Error").length = 5 := rfl
    omega

/-! ## Claims -/

/-- C1: every executed request that asked for a reply produces a reply
whose header job identifier equals exactly the request's job
identifier.  `execute_and_reply` builds the reply header from the call's
own `jobid` argument (line 117), a parameter private to that pool slot,
so the echo holds for any function name, arguments, oracle behavior and
— because the shared store `data` is quantified arbitrarily — any
interleaving of concurrent executions.  The second conjunct states the
batch form: in any list of in-flight requests, each paired with whatever
store state its execution observes, every reply carries its own
request's job id, regardless of completion order. -/
theorem reply_jobid_echoes_request :
    (∀ (env : Env) (func : PyVal) (args : List PyVal) (kwargsV jobid : PyVal)
        (data : Data),
      ((executeAndReply env func args kwargsV jobid true data).2.map
        fun m => m.1.jobid) = some jobid)
    ∧ ∀ (batch : List (Submission × Data)) (env : Env) (p : Submission × Data),
        p ∈ batch →
        ((executeAndReply env p.1.func p.1.args p.1.kwargsV p.1.jobid true p.2).2.map
          fun m => m.1.jobid) = some p.1.jobid :=
  ⟨fun _ _ _ _ _ _ => rfl, fun _ _ _ _ => rfl⟩

/-- Witness for C1 at a concrete two-request batch with distinct job
ids. -/
theorem reply_jobid_echoes_request_witness :
    ((⟨PyVal.str "getitem", [PyVal.str "x"], PyVal.dict [], PyVal.int 1, true⟩,
        ([] : Data)) : Submission × Data)
      ∈ [((⟨PyVal.str "getitem", [PyVal.str "x"], PyVal.dict [], PyVal.int 1, true⟩ :
            Submission), ([] : Data)),
         ((⟨PyVal.str "status", [], PyVal.dict [], PyVal.int 2, true⟩ : Submission),
            ([] : Data))]
    ∧ ((executeAndReply env0 (PyVal.str "getitem") [PyVal.str "x"] (PyVal.dict [])
          (PyVal.int 1) true []).2.map fun m => m.1.jobid) = some (PyVal.int 1) :=
  ⟨by simp,
   reply_jobid_echoes_request.2
     [(⟨PyVal.str "getitem", [PyVal.str "x"], PyVal.dict [], PyVal.int 1, true⟩, []),
      (⟨PyVal.str "status", [], PyVal.dict [], PyVal.int 2, true⟩, [])]
     env0
     (⟨PyVal.str "getitem", [PyVal.str "x"], PyVal.dict [], PyVal.int 1, true⟩, [])
     (by simp)⟩

/-- C2, counterexample: a message whose payload fails to decode does not
surface as an execution failure with status `"Error"`; the
`unpack_function` call sits in the loop body of `listen_to_scheduler`
with no surrounding try/except, so the decode exception escapes the
loop step (the `Except.error` outcome below) — no reply of any status
is produced and the polling thread dies. -/
theorem decode_failure_not_an_error_reply :
    schedulerMessageStep env0 (fun _ => Option.none) [] [] []
      = Except.error PyErr.unpicklingError := rfl

/-- C2, amended: whenever `unpack_function` raises on an inbound
message — malformed header or payload bytes included — the exception
propagates out of the channel-polling loop body untouched: no execution
unit is submitted, no reply (with status `"Error"` or otherwise) is
produced, and the polling loop crashes. -/
theorem decode_failure_escapes_loop (env : Env) (loads : Bytes → Option PyVal)
    (data : Data) (hb pb : Bytes) (e : PyErr)
    (h : unpack_function loads hb pb = Except.error e) :
    schedulerMessageStep env loads data hb pb = Except.error e := by
  simp [schedulerMessageStep, h]

/-- Witness for the amended C2 at concrete malformed bytes. -/
theorem decode_failure_escapes_loop_witness :
    unpack_function (fun _ => Option.none) [] [] = Except.error PyErr.unpicklingError
    ∧ schedulerMessageStep env0 (fun _ => Option.none) [] [] []
        = Except.error PyErr.unpicklingError :=
  ⟨rfl, decode_failure_escapes_loop env0 (fun _ => Option.none) [] [] []
    PyErr.unpicklingError rfl⟩

/-- C3: a request naming an unregistered function gets the distinct
status `Function <name> not found` (with the caught lookup `KeyError`
as result), a status different from `"OK"` and from `"Error"`; whereas
`getitem` or `delitem` on an absent key — a `KeyError` raised by a
registered handler — gets status `"Error"`. The dispatcher
distinguishes the two `KeyError` sources by re-testing membership
(line 109). -/
theorem unknown_function_vs_handler_keyerror :
    (∀ (env : Env) (name : String) (args : List PyVal) (kwargsV jobid : PyVal)
        (data : Data),
      name ∉ functionNames →
      (executeAndReply env (PyVal.str name) args kwargsV jobid true data).2 =
        some ({ jobid := jobid, status := "Function " ++ name ++ " not found" },
              PyErr.toVal (PyErr.keyError (PyVal.str name)))
      ∧ "Function " ++ name ++ " not found" ≠ "OK"
      ∧ "Function " ++ name ++ " not found" ≠ "Error")
    ∧ ∀ (env : Env) (k jobid : PyVal) (data : Data),
        lookup k data = Option.none →
        (executeAndReply env (PyVal.str "getitem") [k] (PyVal.dict []) jobid true
            data).2 =
          some ({ jobid := jobid, status := "Error" },
                PyErr.toVal (PyErr.keyError k))
        ∧ (executeAndReply env (PyVal.str "delitem") [k] (PyVal.dict []) jobid true
            data).2 =
          some ({ jobid := jobid, status := "Error" },
                PyErr.toVal (PyErr.keyError k)) := by
  constructor
  · intro env name args kwargsV jobid data hname
    have hreg : isRegistered (PyVal.str name) = false := decide_eq_false hname
    refine ⟨?_, (notFound_ne name).1, (notFound_ne name).2⟩
    simp [executeAndReply, executeOutcome, hreg, notFoundStatus, pyStr]
  · intro env k jobid data hk
    have hg : isRegistered (PyVal.str "getitem") = true := rfl
    have hd : isRegistered (PyVal.str "delitem") = true := rfl
    constructor
    · simp [executeAndReply, executeOutcome, hg, callFunction, hk]
    · simp [executeAndReply, executeOutcome, hd, callFunction, hk]

/-- Witness for C3: the unregistered name `frobnicate`, and `getitem`
on the key `x` absent from an empty store. -/
theorem unknown_function_vs_handler_keyerror_witness :
    ("frobnicate" ∉ functionNames
      ∧ (executeAndReply env0 (PyVal.str "frobnicate") [] (PyVal.dict [])
          (PyVal.int 7) true []).2 =
        some ({ jobid := PyVal.int 7, status := "Function frobnicate not found" },
              PyVal.exc "KeyError" (PyVal.str "frobnicate")))
    ∧ (lookup (PyVal.str "x") [] = Option.none
      ∧ (executeAndReply env0 (PyVal.str "getitem") [PyVal.str "x"] (PyVal.dict [])
          (PyVal.int 8) true []).2 =
        some ({ jobid := PyVal.int 8, status := "Error" },
              PyVal.exc "KeyError" (PyVal.str "x"))) :=
  ⟨⟨by decide,
    (unknown_function_vs_handler_keyerror.1 env0 "frobnicate" [] (PyVal.dict [])
      (PyVal.int 7) [] (by decide)).1⟩,
   ⟨rfl,
    (unknown_function_vs_handler_keyerror.2 env0 (PyVal.str "x") (PyVal.int 8) []
      rfl).1⟩⟩

/-- C4: when the external evaluator raises, `compute` stores nothing —
the store stays exactly what `collect` left — and returns a record
whose status is the caught exception (never `"OK"`), still carrying the
key and the duration `end - start`.  The nonempty-candidates hypothesis
marks the fidelity boundary of the total `choice` oracle (CPython's
`random.choice` raises `IndexError` on an empty candidate list, aborting
`collect` before `compute`'s timing code runs). -/
theorem compute_failure_isolation (env : Env) (key task : PyVal)
    (locations : List (PyVal × List String)) (data : Data) (e : PyErr)
    (hwf : ∀ p ∈ locations, p.2 ≠ ([] : List String))
    (h : env.evalTask (collect env data locations).1 task = Except.error e) :
    (compute env key task locations data).1 = (collect env data locations).1
    ∧ (compute env key task locations data).2.status ≠ PyVal.str "OK"
    ∧ (compute env key task locations data).2.key = key
    ∧ (compute env key task locations data).2.duration = env.t1 - env.t0 := by
  have h1 : compute env key task locations data =
      ((collect env data locations).1,
       { key := key, duration := env.t1 - env.t0, status := e.toVal }) := by
    simp [compute, h]
  refine ⟨by rw [h1], ?_, by rw [h1], by rw [h1]⟩
  rw [h1]
  cases e <;> exact fun habs => nomatch habs

/-- Witness for C4 with a concrete always-raising evaluator. -/
theorem compute_failure_isolation_witness :
    ((∀ p ∈ ([] : List (PyVal × List String)), p.2 ≠ ([] : List String))
      ∧ envFail.evalTask (collect envFail [] []).1 PyVal.none =
          Except.error (PyErr.typeError "boom"))
    ∧ (compute envFail (PyVal.str "z") PyVal.none [] []).1 = (collect envFail [] []).1
    ∧ (compute envFail (PyVal.str "z") PyVal.none [] []).2.status ≠ PyVal.str "OK"
    ∧ (compute envFail (PyVal.str "z") PyVal.none [] []).2.key = PyVal.str "z"
    ∧ (compute envFail (PyVal.str "z") PyVal.none [] []).2.duration =
        envFail.t1 - envFail.t0 := by
  have hmain := compute_failure_isolation envFail (PyVal.str "z") PyVal.none [] []
    (PyErr.typeError "boom") (by simp) rfl
  exact ⟨⟨by simp, rfl⟩, hmain.1, hmain.2.1, hmain.2.2.1, hmain.2.2.2⟩

/-- C5: a key already present in the store when `collect` runs is
skipped entirely — no peer request is issued for it (first conjunct:
no issued request carries it as job id) and its stored value is
unchanged by the fan-in phase (second conjunct). -/
theorem collect_skips_present_keys (env : Env) (data : Data)
    (locations : List (PyVal × List String)) (k v : PyVal)
    (hwf : ∀ p ∈ locations, p.2 ≠ ([] : List String))
    (h : lookup k data = some v) :
    (∀ r ∈ (collect env data locations).2, r.jobid ≠ k)
    ∧ lookup k (collect env data locations).1 = some v := by
  have hne : ∀ r ∈ collectRequests env data locations, r.jobid ≠ k := by
    intro r hr heq
    have hnone := mem_collectRequests hr
    rw [heq, h] at hnone
    exact Option.noConfusion hnone
  refine ⟨hne, ?_⟩
  show lookup k (collectReceive env (collectRequests env data locations) data) = some v
  rw [lookup_collectReceive_of_forall_ne env _ _ hne, h]

/-- Witness for C5: `x` is already stored, so `collect` over a
locations mapping naming `x` issues nothing for it and keeps its
value. -/
theorem collect_skips_present_keys_witness :
    ((∀ p ∈ [((PyVal.str "x"), ["tcp://a:1"])], p.2 ≠ ([] : List String))
      ∧ lookup (PyVal.str "x") [(PyVal.str "x", PyVal.int 7)] = some (PyVal.int 7))
    ∧ (∀ r ∈ (collect env0 [(PyVal.str "x", PyVal.int 7)]
          [((PyVal.str "x"), ["tcp://a:1"])]).2, r.jobid ≠ PyVal.str "x")
    ∧ lookup (PyVal.str "x") (collect env0 [(PyVal.str "x", PyVal.int 7)]
        [((PyVal.str "x"), ["tcp://a:1"])]).1 = some (PyVal.int 7) := by
  have hmain := collect_skips_present_keys env0 [(PyVal.str "x", PyVal.int 7)]
    [((PyVal.str "x"), ["tcp://a:1"])] (PyVal.str "x") (PyVal.int 7) (by simp) rfl
  exact ⟨⟨by simp, rfl⟩, hmain.1, hmain.2⟩

/-- C6: a request whose decoded header has reply-wanted false produces
no outbound message at all, whatever the outcome of execution — both
channel loops pass `send = None` in that case and `execute_and_reply`
only sends through a non-`None` sink (line 123).  The first conjunct
covers the execution unit shared by both channels (so the suppression
holds on either channel, handler failures and unknown names included,
since `func`, `args` and the oracles are arbitrary); the second traces
it through the scheduler loop's dispatch of a decoded message. -/
theorem no_reply_when_reply_false :
    (∀ (env : Env) (func : PyVal) (args : List PyVal) (kwargsV jobid : PyVal)
        (data : Data),
      (executeAndReply env func args kwargsV jobid false data).2 = Option.none)
    ∧ ∀ (env : Env) (loads : Bytes → Option PyVal) (data : Data) (hb pb : Bytes)
        (sub : Submission),
        unpack_function loads hb pb = Except.ok sub → sub.reply = false →
        schedulerMessageStep env loads data hb pb =
          Except.ok
            ((executeAndReply env sub.func sub.args sub.kwargsV sub.jobid false
              data).1, Option.none) := by
  constructor
  · intro env func args kwargsV jobid data
    rfl
  · intro env loads data hb pb sub h1 h2
    simp only [schedulerMessageStep, h1, h2]
    rfl

/-- Witness for C6 at a concrete no-reply-wanted message. -/
theorem no_reply_when_reply_false_witness :
    (unpack_function loadsProbe [2] [0] =
        Except.ok ⟨PyVal.str "status", [], PyVal.dict [], PyVal.int 5, false⟩
      ∧ (⟨PyVal.str "status", [], PyVal.dict [], PyVal.int 5, false⟩ :
          Submission).reply = false)
    ∧ schedulerMessageStep env0 loadsProbe [] [2] [0] =
        Except.ok
          ((executeAndReply env0 (PyVal.str "status") [] (PyVal.dict [])
            (PyVal.int 5) false []).1, Option.none) :=
  ⟨⟨rfl, rfl⟩,
   no_reply_when_reply_false.2 env0 loadsProbe [] [2] [0]
     ⟨PyVal.str "status", [], PyVal.dict [], PyVal.int 5, false⟩ rfl rfl⟩

/-- C7, counterexample: a list is a sequence, yet
`if not isinstance(args, tuple): args = (args,)` wraps it whole instead
of passing its elements as the positional arguments. -/
theorem args_list_not_unpacked :
    isSequence (PyVal.list [PyVal.int 1, PyVal.int 2]) = true
    ∧ normalizeArgs (PyVal.list [PyVal.int 1, PyVal.int 2]) =
        [PyVal.list [PyVal.int 1, PyVal.int 2]]
    ∧ normalizeArgs (PyVal.list [PyVal.int 1, PyVal.int 2]) ≠
        seqElements (PyVal.list [PyVal.int 1, PyVal.int 2]) :=
  ⟨rfl, rfl, by decide⟩

/-- C7, amended: the positional arguments handed to the handler are
always a sequence — a tuple's elements pass through unchanged, and any
other args value, bare singular values and non-tuple sequences such as
lists and strings alike, is wrapped into a one-element sequence. -/
theorem args_normalization_tuple_only :
    (∀ xs, normalizeArgs (PyVal.tuple xs) = xs)
    ∧ (∀ xs, normalizeArgs (PyVal.list xs) = [PyVal.list xs])
    ∧ (∀ s, normalizeArgs (PyVal.str s) = [PyVal.str s])
    ∧ (∀ n, normalizeArgs (PyVal.int n) = [PyVal.int n])
    ∧ (∀ b, normalizeArgs (PyVal.bool b) = [PyVal.bool b])
    ∧ normalizeArgs PyVal.none = [PyVal.none]
    ∧ (∀ es, normalizeArgs (PyVal.dict es) = [PyVal.dict es])
    ∧ ∀ k a, normalizeArgs (PyVal.exc k a) = [PyVal.exc k a] :=
  ⟨fun _ => rfl, fun _ => rfl, fun _ => rfl, fun _ => rfl, fun _ => rfl, rfl,
   fun _ => rfl, fun _ _ => rfl⟩

/-- C8: constructing with no explicit address does not establish the
host:port default — line 62 evaluates `socket.gethostname()`, but
`socket` is bound by no import of the module (first conjunct), so the
default-address branch raises `NameError` before any channel is opened,
for every hostname and port (second conjunct); only construction with
an explicit address proceeds (third conjunct). -/
theorem default_address_construction_raises_nameerror :
    ("socket" ∉ moduleTopLevelNames)
    ∧ (∀ (hostname : String) (port : Option Int),
        workerInitAddress hostname Option.none port = InitResult.nameError "socket")
    ∧ ∀ (hostname a : String) (port : Option Int),
        workerInitAddress hostname (some a) port = InitResult.ok a :=
  ⟨by decide, fun _ _ => rfl, fun _ _ _ => rfl⟩

/-- C9, counterexample: the two send paths do not hold dedicated
per-channel locks — at concrete inputs both the coordinator-facing and
the peer-facing send acquire the very same lock, the single `self.lock`
of line 75, so the claimed one-lock-per-channel layout is false. -/
theorem send_paths_share_one_lock :
    locksAcquired (send_to_scheduler (fun _ => []) "tcp://w:1"
        { jobid := PyVal.int 1, status := "OK" } PyVal.none)
      = locksAcquired (send_to_worker (fun _ => []) "tcp://w:1" []
        { jobid := PyVal.int 2, status := "OK" } PyVal.none)
    ∧ locksAcquired (send_to_scheduler (fun _ => []) "tcp://w:1"
        { jobid := PyVal.int 1, status := "OK" } PyVal.none)
      = [LockName.selfLock] :=
  ⟨rfl, rfl⟩

/-- C9, amended: each send path is an exclusive critical section — a
single acquire of a lock around the whole multi-frame send, so no
channel interleaves the frames of two messages — but both channels'
send paths acquire the one shared lock the worker owns (`self.lock` is
the only lock `__init__` creates), so the two channels are serialized
against each other rather than concurrently writable. -/
theorem send_paths_locking (dumps : PyVal → Bytes) (selfAddr : String)
    (dest : Bytes) (h1 h2 : ReplyHeader) (payload result : PyVal) :
    locksAcquired (send_to_scheduler dumps selfAddr h1 payload) = workerLocks
    ∧ locksAcquired (send_to_worker dumps selfAddr dest h2 result) = workerLocks
    ∧ workerLocks = [LockName.selfLock] :=
  ⟨rfl, rfl, rfl⟩

/-- C10: when the evaluator raises, `compute` leaves the store exactly
as `collect` left it, so every dependency value the preceding `collect`
fetched (stored under the reply's job id, before evaluation began)
remains present: every key of the locations mapping is in the store
after the failed `compute`.  Only the target key's insertion is
skipped. -/
theorem compute_failure_keeps_collected_deps (env : Env) (key task : PyVal)
    (locations : List (PyVal × List String)) (data : Data) (e : PyErr)
    (hwf : ∀ p ∈ locations, p.2 ≠ ([] : List String))
    (h : env.evalTask (collect env data locations).1 task = Except.error e) :
    (compute env key task locations data).1 = (collect env data locations).1
    ∧ ∀ p ∈ locations,
        (lookup p.1 (compute env key task locations data).1).isSome = true := by
  have h1 : (compute env key task locations data).1 =
      (collect env data locations).1 := by
    simp [compute, h]
  refine ⟨h1, ?_⟩
  intro p hp
  rw [h1]
  obtain ⟨pk, pl⟩ := p
  rcases collectRequests_covers env data hp with hs | hmem
  · exact isSome_lookup_collectReceive env (collectRequests env data locations) hs
  · exact isSome_lookup_collectReceive_of_mem env data hmem

/-- Witness for C10: a failing evaluator over one collected dependency
`x`; after `compute` fails, `x` is still stored. -/
theorem compute_failure_keeps_collected_deps_witness :
    ((∀ p ∈ [((PyVal.str "x"), ["tcp://a:1"])], p.2 ≠ ([] : List String))
      ∧ envFail.evalTask
          (collect envFail [] [((PyVal.str "x"), ["tcp://a:1"])]).1 PyVal.none =
          Except.error (PyErr.typeError "boom"))
    ∧ (compute envFail (PyVal.str "z") PyVal.none
        [((PyVal.str "x"), ["tcp://a:1"])] []).1 =
      (collect envFail [] [((PyVal.str "x"), ["tcp://a:1"])]).1
    ∧ ∀ p ∈ [((PyVal.str "x"), ["tcp://a:1"])],
        (lookup p.1 (compute envFail (PyVal.str "z") PyVal.none
          [((PyVal.str "x"), ["tcp://a:1"])] []).1).isSome = true := by
  have hmain := compute_failure_keeps_collected_deps envFail (PyVal.str "z")
    PyVal.none [((PyVal.str "x"), ["tcp://a:1"])] [] (PyErr.typeError "boom")
    (by simp) rfl
  exact ⟨⟨by simp, rfl⟩, hmain.1, hmain.2⟩

end DaskWorker
